import Mathlib

/-!
Verification of the DrinkingReminder water-tracker application
(`src/water_tracker.py`) against its natural-language specification.

The embedding models:
* the silhouette-mask pipeline of `generate_bottle_images_in_memory`
  (thresholding and polarity correction over the flat pixel list that
  `Image.getdata()` yields; the Gaussian blur and image decoding are
  library calls, so the input list is the post-blur luminance data);
* the per-pixel fill rendering of `update_filled_bottle` (fill ratio,
  fill height, the PIL rectangle, `putalpha`, and "over" alpha
  compositing in exact rational arithmetic);
* the persistence layer `save_data` / `load_data` over an explicit
  model of the flat JSON document and its failure modes;
* `add_custom` together with a model of Python's builtin `int(str)`
  and `str.strip()`;
* the reminder timer (`toggle_reminder` / `update_countdown`) as a
  step function driven by 1-second ticks at integer wall-clock times.
-/

/-- An RGBA pixel with exact rational channels on the 0..255 scale. -/
structure RGBA where
  r : ℚ
  g : ℚ
  b : ℚ
  a : ℚ
deriving DecidableEq

/-- `img.point(lambda p: 255 if p > threshold else 0)` over the flat
`getdata()` pixel list (water_tracker.py line 52). -/
def thresholdImage (threshold : ℕ) (img : List ℕ) : List ℕ :=
  img.map fun p => if threshold < p then 255 else 0

/-- The polarity-correction step of `generate_bottle_images_in_memory`
(lines 55-58): count 255-pixels and 0-pixels, and invert the image
(`ImageOps.invert`, pixel p becomes 255 - p) when black outnumbers white. -/
def polarityCorrect (img : List ℕ) : List ℕ :=
  let white_count := img.count 255
  let black_count := img.count 0
  if white_count < black_count then img.map (fun p => 255 - p) else img

/-- The mask returned by `generate_bottle_images_in_memory`: threshold the
blurred luminance data, then polarity-correct (lines 50-61). -/
def bottle_mask (threshold : ℕ) (img : List ℕ) : List ℕ :=
  polarityCorrect (thresholdImage threshold img)

/-- The gray "empty bottle" sprite built by
`generate_bottle_images_in_memory` (lines 63-73): flat gray where the
mask is 255, fully transparent elsewhere. -/
def empty_bottle (threshold : ℕ) (img : List ℕ) : List RGBA :=
  (bottle_mask threshold img).map fun px =>
    if px = 255 then ⟨150, 150, 150, 255⟩ else ⟨0, 0, 0, 0⟩

/-- The pair `(mask_img, empty_img)` returned by
`generate_bottle_images_in_memory` (line 75). -/
def generate_bottle_images_in_memory (threshold : ℕ) (img : List ℕ) :
    List ℕ × List RGBA :=
  (bottle_mask threshold img, empty_bottle threshold img)

/-- `ratio = min(1.0, self.total_consumed / self.CAPACITY)` with
`CAPACITY = 3000` (line 252), in exact rational arithmetic. -/
def fill_ratio (total_consumed : ℕ) : ℚ :=
  min 1 ((total_consumed : ℚ) / 3000)

/-- `fill_height = int(h * ratio)` (line 254); the value is non-negative,
so Python's truncation is the floor. -/
def fill_height (total_consumed h : ℕ) : ℕ :=
  (⌊(h : ℚ) * fill_ratio total_consumed⌋).toNat

/-- The rectangle drawn on the fresh transparent layer (lines 256-258):
`draw.rectangle([0, h - fill_height, w, h], fill=(0, 0, 255, 200))`.
A pixel in row `y` (with `y < h`) is painted exactly when
`h - fill_height ≤ y`; the subtraction is Python integer arithmetic,
hence taken in `ℤ`. -/
def rect_pixel (h fh y : ℕ) : RGBA :=
  if (h : ℤ) - (fh : ℤ) ≤ (y : ℤ) then ⟨0, 0, 255, 200⟩ else ⟨0, 0, 0, 0⟩

/-- `fill_layer.putalpha(self.bottle_mask)` (line 259): PIL replaces the
whole alpha channel of the layer with the mask value. -/
def putalpha_pixel (p : RGBA) (m : ℕ) : RGBA :=
  ⟨p.r, p.g, p.b, (m : ℚ)⟩

/-- One pixel of the fill layer after the rectangle and `putalpha`:
`m` is the mask value at that pixel. -/
def fill_layer_pixel (h fh y m : ℕ) : RGBA :=
  putalpha_pixel (rect_pixel h fh y) m

/-- One pixel of `self.empty_bottle` as a function of the mask value at
that pixel (lines 66-73): gray where the mask is 255, clear elsewhere. -/
def empty_bottle_pixel (m : ℕ) : RGBA :=
  if m = 255 then ⟨150, 150, 150, 255⟩ else ⟨0, 0, 0, 0⟩

/-- `Image.alpha_composite(bottom, top)` (line 261): straight-alpha
"over" compositing on the 0..255 scale, in exact rationals. -/
def alpha_composite (bot top : RGBA) : RGBA :=
  let outA : ℚ := top.a + bot.a * (255 - top.a) / 255
  if outA = 0 then ⟨0, 0, 0, 0⟩
  else
    ⟨(top.r * top.a + bot.r * bot.a * (255 - top.a) / 255) / outA,
     (top.g * top.a + bot.g * bot.a * (255 - top.a) / 255) / outA,
     (top.b * top.a + bot.b * bot.a * (255 - top.a) / 255) / outA,
     outA⟩

/-- One pixel of the image displayed by `update_filled_bottle`
(lines 247-261), as a function of `total_consumed`, the image height,
the pixel row `y` and the mask value `m` at that pixel. -/
def update_filled_bottle (total_consumed h y m : ℕ) : RGBA :=
  alpha_composite (empty_bottle_pixel m)
    (fill_layer_pixel h (fill_height total_consumed h) y m)

/-- Whitespace characters stripped by Python's `str.strip()` and by
`int(str)` (model of the Python builtins, restricted to ASCII). -/
def isPySpace (c : Char) : Bool :=
  c = ' ' || c = '\t' || c = '\n' || c = '\x0d' || c = '\x0b' || c = '\x0c'

/-- Model of Python's `str.strip()`: drop leading and trailing
whitespace. -/
def pyStrip (s : String) : String :=
  String.mk (((s.data.dropWhile isPySpace).reverse.dropWhile isPySpace).reverse)

/-- ASCII decimal digit test. -/
def isAsciiDigit (c : Char) : Bool :=
  48 ≤ c.toNat && c.toNat ≤ 57

/-- Continuation of a digit run for Python's `int(str)` grammar: digits,
with single underscores allowed strictly between digits. -/
def digitRun : List Char → Bool
  | [] => true
  | [c] => isAsciiDigit c
  | c :: d :: rest =>
    if isAsciiDigit c then digitRun (d :: rest)
    else if c = '_' then isAsciiDigit d && digitRun rest
    else false

/-- A whole valid digit part for Python's `int(str)`: non-empty, starts
with a digit, single underscores only between digits. -/
def digitsValid (l : List Char) : Bool :=
  match l with
  | [] => false
  | c :: rest => isAsciiDigit c && digitRun rest

/-- Numeric value of a digit list (underscores removed beforehand). -/
def digitsToNat (l : List Char) : ℕ :=
  l.foldl (fun acc c => 10 * acc + (c.toNat - 48)) 0

/-- Value of a valid digit part, ignoring grouping underscores. -/
def digitsVal (l : List Char) : ℤ :=
  (digitsToNat (l.filter fun c => c ≠ '_') : ℤ)

/-- Model of Python's builtin `int(str)` as used by `add_custom`
(line 227): strip whitespace, allow an optional sign, then a non-empty
digit run (underscores permitted between digits); anything else raises
`ValueError`, modelled as `none`. -/
def pythonInt (s : String) : Option ℤ :=
  match (pyStrip s).data with
  | '+' :: rest => if digitsValid rest then some (digitsVal rest) else none
  | '-' :: rest => if digitsValid rest then some (-(digitsVal rest)) else none
  | cs => if digitsValid cs then some (digitsVal cs) else none

/-- Result of `add_custom`: the new `total_consumed` and whether the
modal warning was shown (the operation aborted). -/
structure AddCustomResult where
  total_consumed : ℤ
  warned : Bool
deriving DecidableEq

/-- `add_custom` (lines 225-236): parse the entry text with `int`; on
`ValueError` or a non-positive amount show a warning and leave the total
unchanged; otherwise add the amount. -/
def add_custom (total_consumed : ℤ) (entry : String) : AddCustomResult :=
  match pythonInt entry with
  | some amount =>
    if 0 < amount then ⟨total_consumed + amount, false⟩
    else ⟨total_consumed, true⟩
  | none => ⟨total_consumed, true⟩

/-- The three persisted scalar fields held in memory by the application. -/
structure AppState where
  total_consumed : ℤ
  custom_sound : String
  reminder_interval : ℤ
deriving DecidableEq

/-- The flat JSON object written by `save_data` (lines 375-379), with all
three keys present. -/
structure SavedJson where
  total_consumed : ℤ
  custom_sound : String
  reminder_interval : ℤ
deriving DecidableEq

/-- What `load_data` finds at the fixed config path: no file, a file that
`json.load` rejects, or a parsed JSON object in which each of the three
keys may be absent. -/
inductive LoadSource where
  | missingFile
  | malformedJson
  | parsed (total_consumed : Option ℤ) (custom_sound : Option String)
      (reminder_interval : Option ℤ)
deriving DecidableEq

/-- The field values set by `__init__` before `load_data` runs
(lines 98-108): `total_consumed = 0`, empty sound path, and
`IntVar(value=1)` for the interval. -/
def initState : AppState := ⟨0, "", 1⟩

/-- `load_data` (lines 352-368): if the file is missing, do nothing; if
`json.load` raises, the bare `except: pass` keeps the current state;
otherwise each field is taken from the document with `saved.get` and its
default (`0`, `""`, `0`). -/
def load_data (st : AppState) : LoadSource → AppState
  | .missingFile => st
  | .malformedJson => st
  | .parsed t s i => ⟨t.getD 0, s.getD "", i.getD 0⟩

/-- `save_data` (lines 370-385): write the three fields, stripping the
sound path (`self.custom_sound_path.get().strip()`). -/
def save_data (st : AppState) : SavedJson :=
  ⟨st.total_consumed, pyStrip st.custom_sound, st.reminder_interval⟩

/-- Reading back a file that `save_data` just wrote: the parse succeeds
and all three keys are present. -/
def savedSource (j : SavedJson) : LoadSource :=
  .parsed (some j.total_consumed) (some j.custom_sound) (some j.reminder_interval)

/-- `toggle_reminder` when starting (lines 271-276):
`next_reminder_time = time.time() + max(1, interval) * 60`.
Wall-clock times are modelled in whole seconds. -/
def toggle_reminder_next (now reminder_minutes : ℤ) : ℤ :=
  now + max 1 reminder_minutes * 60

/-- One tick of `update_countdown` (lines 278-293) at wall-clock time
`now`: if `time_left = next - now` has reached 0, fire the reminder and
reschedule `next = now + max(1, interval) * 60`. Returns the new
`next_reminder_time` and whether the reminder fired. -/
def update_countdown_step (reminder_minutes next now : ℤ) : ℤ × Bool :=
  if next - now ≤ 0 then (now + max 1 reminder_minutes * 60, true)
  else (next, false)

/-- `next_reminder_time` as seen by the tick at index `k`.
`toggle_reminder` at time `T` calls `update_countdown` immediately and
each tick re-arms itself with `after(1000, ...)`, so tick `k` runs at
time `T + k` (ideal 1-second cadence). -/
def next_reminder_time (T reminder_minutes : ℤ) : ℕ → ℤ
  | 0 => toggle_reminder_next T reminder_minutes
  | k + 1 =>
    (update_countdown_step reminder_minutes
      (next_reminder_time T reminder_minutes k) (T + k)).1

/-- Whether the tick at index `k` (wall-clock time `T + k`) fires the
reminder sound. -/
def reminder_fired (T reminder_minutes : ℤ) (k : ℕ) : Bool :=
  (update_countdown_step reminder_minutes
    (next_reminder_time T reminder_minutes k) (T + k)).2

/-- C1: for every non-negative integer `total_consumed`, the fill ratio
computed by `update_filled_bottle` equals `min(1.0, total_consumed/3000)`,
lies in `[0, 1]`, is monotonically non-decreasing in `total_consumed`,
and `total_consumed = 3000` and `total_consumed = 10000` both yield the
ratio `1`. -/
theorem fill_ratio_spec (t u : ℕ) (h : t ≤ u) :
    fill_ratio t = min 1 ((t : ℚ) / 3000) ∧
    0 ≤ fill_ratio t ∧ fill_ratio t ≤ 1 ∧
    fill_ratio t ≤ fill_ratio u ∧
    fill_ratio 3000 = 1 ∧ fill_ratio 10000 = fill_ratio 3000 := by
  refine ⟨rfl, ?_, ?_, ?_, ?_, ?_⟩
  · exact le_min (by norm_num) (by positivity)
  · exact min_le_left _ _
  · unfold fill_ratio
    gcongr
  · norm_num [fill_ratio]
  · norm_num [fill_ratio]

/-- C1 witness: the properties instantiated at `t = 5`, `u = 7`. -/
theorem fill_ratio_spec_witness :
    fill_ratio 5 = min 1 (((5 : ℕ) : ℚ) / 3000) ∧
    0 ≤ fill_ratio 5 ∧ fill_ratio 5 ≤ 1 ∧
    fill_ratio 5 ≤ fill_ratio 7 ∧
    fill_ratio 3000 = 1 ∧ fill_ratio 10000 = fill_ratio 3000 :=
  fill_ratio_spec 5 7 (by decide)

/-- C2: for every `fill_height` in `[0, image_height]`, at every pixel
where the mask value is `0` the fill layer built by
`update_filled_bottle` has alpha `0`, and compositing leaves that pixel
equal to the empty-bottle sprite pixel. -/
theorem fill_never_outside_mask (h fh y m : ℕ) (hfh : fh ≤ h) (hm : m = 0) :
    (fill_layer_pixel h fh y m).a = 0 ∧
    alpha_composite (empty_bottle_pixel m) (fill_layer_pixel h fh y m) =
      empty_bottle_pixel m := by
  subst hm
  constructor
  · simp [fill_layer_pixel, putalpha_pixel]
  · unfold alpha_composite empty_bottle_pixel fill_layer_pixel putalpha_pixel
    norm_num

/-- C2 witness: instantiated at `h = 10`, `fill_height = 4`, `y = 2`,
mask value `0`. -/
theorem fill_never_outside_mask_witness :
    (fill_layer_pixel 10 4 2 0).a = 0 ∧
    alpha_composite (empty_bottle_pixel 0) (fill_layer_pixel 10 4 2 0) =
      empty_bottle_pixel 0 :=
  fill_never_outside_mask 10 4 2 0 (by decide) rfl

/-- C9: `putalpha` replaces the fill layer's entire alpha channel with the
mask, so wherever the mask is `255` the fill layer is fully opaque — for
every `total_consumed`, including rows above the waterline — the
rectangle's stated alpha `200` never reaches the composite (the composited
alpha is `255`), painted rows composite to opaque blue `(0,0,255,255)`
and unfilled in-bottle rows contribute opaque black `(0,0,0,255)`. -/
theorem putalpha_overwrites_alpha (t h y m : ℕ) (hm : m = 255) :
    (fill_layer_pixel h (fill_height t h) y m).a = 255 ∧
    (update_filled_bottle t h y m).a = 255 ∧
    ((h : ℤ) - (fill_height t h : ℤ) ≤ (y : ℤ) →
      update_filled_bottle t h y m = ⟨0, 0, 255, 255⟩) ∧
    ((y : ℤ) < (h : ℤ) - (fill_height t h : ℤ) →
      update_filled_bottle t h y m = ⟨0, 0, 0, 255⟩) := by
  subst hm
  unfold update_filled_bottle alpha_composite empty_bottle_pixel
    fill_layer_pixel putalpha_pixel rect_pixel
  by_cases hc : (h : ℤ) - (fill_height t h : ℤ) ≤ (y : ℤ) <;>
    simp only [hc, if_true, if_false, if_pos, if_neg, not_le] <;>
    norm_num <;> omega

/-- C9 witness: instantiated at `total_consumed = 0`, `h = 10`, `y = 3`,
mask value `255` (row above the waterline). -/
theorem putalpha_overwrites_alpha_witness :
    (fill_layer_pixel 10 (fill_height 0 10) 3 255).a = 255 ∧
    (update_filled_bottle 0 10 3 255).a = 255 ∧
    ((10 : ℤ) - (fill_height 0 10 : ℤ) ≤ (3 : ℕ) →
      update_filled_bottle 0 10 3 255 = ⟨0, 0, 255, 255⟩) ∧
    (((3 : ℕ) : ℤ) < (10 : ℤ) - (fill_height 0 10 : ℤ) →
      update_filled_bottle 0 10 3 255 = ⟨0, 0, 0, 255⟩) :=
  putalpha_overwrites_alpha 0 10 3 255 rfl

/-- C3 (code bug evidence): at `total_consumed = 0` the fill height is
`0`, yet at a pixel with mask value `255` the fill layer has alpha `255`
rather than `0`, and the composited pixel is opaque black instead of the
empty-bottle sprite's gray — the rendered layer is not fully transparent. -/
theorem empty_bottle_rendered_opaque :
    fill_height 0 10 = 0 ∧
    (fill_layer_pixel 10 (fill_height 0 10) 0 255).a = 255 ∧
    update_filled_bottle 0 10 0 255 = ⟨0, 0, 0, 255⟩ ∧
    update_filled_bottle 0 10 0 255 ≠ empty_bottle_pixel 255 := by
  have h0 : fill_height 0 10 = 0 := by
    norm_num [fill_height, fill_ratio]
  refine ⟨h0, ?_, ?_, ?_⟩
  · simp [fill_layer_pixel, putalpha_pixel]
  · rw [update_filled_bottle, h0]
    unfold alpha_composite empty_bottle_pixel fill_layer_pixel
      putalpha_pixel rect_pixel
    norm_num
  · rw [update_filled_bottle, h0]
    unfold alpha_composite empty_bottle_pixel fill_layer_pixel
      putalpha_pixel rect_pixel
    norm_num

/-- Every pixel of a thresholded image is 0 or 255. -/
theorem thresholdImage_mem (threshold : ℕ) (img : List ℕ) :
    ∀ p ∈ thresholdImage threshold img, p = 0 ∨ p = 255 := by
  intro p hp
  simp only [thresholdImage, List.mem_map] at hp
  obtain ⟨q, -, hq⟩ := hp
  split at hq <;> omega

/-- Inverting a binary image swaps the 0-count and the 255-count. -/
theorem count_invert (l : List ℕ) (hl : ∀ p ∈ l, p = 0 ∨ p = 255) :
    (l.map fun p => 255 - p).count 255 = l.count 0 ∧
    (l.map fun p => 255 - p).count 0 = l.count 255 := by
  induction l with
  | nil => simp
  | cons a l ih =>
    have ha := hl a (List.mem_cons_self a l)
    have ih2 := ih fun p hp => hl p (List.mem_cons_of_mem a hp)
    rcases ha with ha | ha <;> subst ha <;>
      simp [List.count_cons, ih2.1, ih2.2]

/-- `getD` through the inversion map: a pixel that reads 255 reads 0
after inversion. -/
theorem getD_invert_of_eq : ∀ (l : List ℕ) (i : ℕ), l.getD i 1 = 255 →
    (l.map fun p => 255 - p).getD i 1 = 0
  | [], i, h => by simp [List.getD] at h
  | a :: l, 0, h => by
    simp only [List.getD_cons_zero] at h
    simp [List.getD_cons_zero, h]
  | a :: l, i + 1, h => by
    simp only [List.getD_cons_succ] at h
    simpa [List.getD_cons_succ] using getD_invert_of_eq l i h

/-- C4 counterexample: a source image whose bottle pixel (value 200,
above the threshold) is the minority after thresholding; the produced
mask marks that bottle pixel 0, not 255. -/
theorem bottle_mask_minority_counterexample :
    thresholdImage 128 [200, 50, 50, 50, 50] = [255, 0, 0, 0, 0] ∧
    (thresholdImage 128 [200, 50, 50, 50, 50]).count 255 <
      (thresholdImage 128 [200, 50, 50, 50, 50]).count 0 ∧
    bottle_mask 128 [200, 50, 50, 50, 50] = [0, 255, 255, 255, 255] ∧
    (bottle_mask 128 [200, 50, 50, 50, 50]).getD 0 1 ≠ 255 := by decide

/-- C4 amended: when the bottle's thresholded value `v` (0 or 255) is the
strict minority, the polarity-corrected mask marks every bottle pixel `0`
— the correction makes the majority value 255, so a minority bottle ends
up marked 0, not 255. -/
theorem bottle_mask_minority_is_zero (threshold v i : ℕ) (img : List ℕ)
    (hv : v = 0 ∨ v = 255)
    (hmin : (thresholdImage threshold img).count v <
      (thresholdImage threshold img).count (255 - v))
    (hpix : (thresholdImage threshold img).getD i 1 = v) :
    (bottle_mask threshold img).getD i 1 = 0 := by
  unfold bottle_mask polarityCorrect
  rcases hv with hv | hv <;> subst hv
  · simp only [Nat.sub_zero] at hmin
    rw [if_neg (by omega)]
    exact hpix
  · simp only [Nat.sub_self] at hmin
    rw [if_pos (by omega)]
    exact getD_invert_of_eq _ _ hpix

/-- C4 amended witness: the minority bottle pixel of the concrete image
is marked 0 in the mask. -/
theorem bottle_mask_minority_is_zero_witness :
    (bottle_mask 128 [200, 50, 50, 50, 50]).getD 0 1 = 0 :=
  bottle_mask_minority_is_zero 128 255 0 [200, 50, 50, 50, 50]
    (Or.inr rfl) (by decide) (by decide)

/-- C10: for every source image, the mask returned by
`generate_bottle_images_in_memory` contains only the pixel values 0 and
255, and the 255-pixels are a weak majority (the inversion step makes
255 at least as frequent as 0). -/
theorem bottle_mask_binary_majority (threshold : ℕ) (img : List ℕ) :
    (∀ p ∈ (generate_bottle_images_in_memory threshold img).1,
      p = 0 ∨ p = 255) ∧
    (generate_bottle_images_in_memory threshold img).1.count 0 ≤
      (generate_bottle_images_in_memory threshold img).1.count 255 := by
  have hbin := thresholdImage_mem threshold img
  simp only [generate_bottle_images_in_memory, bottle_mask, polarityCorrect]
  split
  · rename_i hc
    refine ⟨?_, ?_⟩
    · intro p hp
      simp only [List.mem_map] at hp
      obtain ⟨q, hq, rfl⟩ := hp
      rcases hbin q hq with h | h <;> subst h <;> simp
    · rw [(count_invert _ hbin).1, (count_invert _ hbin).2]
      omega
  · rename_i hc
    exact ⟨hbin, by omega⟩

/-- C5 counterexample: a state whose sound path carries a leading space
does not survive the save/load round trip, because `save_data` strips
the path. -/
theorem save_load_roundtrip_counterexample :
    load_data initState (savedSource (save_data ⟨500, " beep.wav", 5⟩)) ≠
      (⟨500, " beep.wav", 5⟩ : AppState) := by decide

/-- C5 amended: for every valid triple whose sound path equals its own
strip (no leading or trailing whitespace), `load_data` after `save_data`
restores the original state, whatever state was in memory before the
load. -/
theorem save_load_roundtrip (st prior : AppState)
    (hs : pyStrip st.custom_sound = st.custom_sound) :
    load_data prior (savedSource (save_data st)) = st := by
  cases st
  simp only [save_data, savedSource, load_data, Option.getD_some]
  simp only at hs
  rw [hs]

/-- C5 amended witness: the round trip at a concrete whitespace-free
triple. -/
theorem save_load_roundtrip_witness :
    load_data initState (savedSource (save_data ⟨1500, "beep.wav", 30⟩)) =
      (⟨1500, "beep.wav", 30⟩ : AppState) :=
  save_load_roundtrip ⟨1500, "beep.wav", 30⟩ initState (by decide)

/-- C6: `add_custom` leaves `total_consumed` unchanged and warns whenever
the entry does not parse as an integer or parses as a non-positive one,
and adds exactly `n` when the entry parses as a positive integer `n`; in
particular the inputs `"-5"`, `"abc"` and `"0"` are all rejected. -/
theorem add_custom_spec (total : ℤ) (s : String) :
    (pythonInt s = none → add_custom total s = ⟨total, true⟩) ∧
    (∀ n : ℤ, pythonInt s = some n → n ≤ 0 →
      add_custom total s = ⟨total, true⟩) ∧
    (∀ n : ℤ, pythonInt s = some n → 0 < n →
      add_custom total s = ⟨total + n, false⟩) ∧
    pythonInt "-5" = some (-5) ∧ pythonInt "abc" = none ∧
    pythonInt "0" = some 0 := by
  refine ⟨?_, ?_, ?_, by decide, by decide, by decide⟩
  · intro h
    simp [add_custom, h]
  · intro n h hn
    simp [add_custom, h, show ¬(0 < n) from not_lt.mpr hn]
  · intro n h hn
    simp [add_custom, h, hn]

/-- C6 witness: the rejected inputs leave the total at 7 with a warning,
and the accepted input `"12"` adds exactly 12. -/
theorem add_custom_spec_witness :
    add_custom 7 "-5" = ⟨7, true⟩ ∧ add_custom 7 "abc" = ⟨7, true⟩ ∧
    add_custom 7 "0" = ⟨7, true⟩ ∧ add_custom 7 "12" = ⟨19, false⟩ :=
  ⟨(add_custom_spec 7 "-5").2.1 (-5) (by decide) (by decide),
   (add_custom_spec 7 "abc").1 (by decide),
   (add_custom_spec 7 "0").2.1 0 (by decide) (by decide),
   (add_custom_spec 7 "12").2.2.1 12 (by decide) (by decide)⟩

/-- C8 counterexample: when the persisted file is missing, `load_data`
does not fall back to `reminder_interval = 0`: it leaves the state set by
`__init__`, whose interval is 1. -/
theorem load_data_missing_file_counterexample :
    load_data initState LoadSource.missingFile = initState ∧
    initState.reminder_interval = 1 ∧
    load_data initState LoadSource.missingFile ≠
      (⟨0, "", 0⟩ : AppState) := by decide

/-- C8 amended: a parsed file with missing keys falls back per key to
`total_consumed = 0`, `sound_path = ""`, `interval = 0`; but a missing
file or malformed JSON leaves the state unchanged, i.e. at the
`__init__` defaults `(0, "", 1)` — the interval stays 1, not 0, in those
two failure cases. -/
theorem load_data_fallback (st : AppState) :
    load_data st LoadSource.missingFile = st ∧
    load_data st LoadSource.malformedJson = st ∧
    load_data st (LoadSource.parsed none none none) = ⟨0, "", 0⟩ ∧
    (∀ (t : Option ℤ) (s : Option String) (i : Option ℤ),
      load_data st (LoadSource.parsed t s i) = ⟨t.getD 0, s.getD "", i.getD 0⟩) ∧
    load_data initState LoadSource.missingFile = initState :=
  ⟨rfl, rfl, rfl, fun t s i => rfl, rfl⟩

/-- Closed form for the scheduled fire time under an interval of one
minute: after tick `k` has been processed (and initially, for `k = 0`),
the pending fire time is `T + 60 * ((k - 1) / 60 + 1)`. -/
theorem next_reminder_time_formula (T : ℤ) (k : ℕ) :
    next_reminder_time T 1 k = T + 60 * (((k - 1) / 60 : ℕ) + 1 : ℤ) := by
  induction k with
  | zero =>
    simp only [next_reminder_time, toggle_reminder_next, max_self]
    norm_num
  | succ k ih =>
    simp only [next_reminder_time, update_countdown_step, max_self, ih]
    split
    · rename_i hc
      push_cast at hc ⊢
      omega
    · rename_i hc
      push_cast at hc ⊢
      omega

/-- C7: with `interval_minutes = 1`, starting at time `T` schedules the
first fire at `T + 60`; the tick at index `k` (wall-clock time `T + k`)
fires exactly when `k` is a positive multiple of 60 — so the fires land
at `T + 60`, `T + 120`, ... with no drift — and after a fire at time
`T + k` the next fire time is exactly `(T + k) + 60`. -/
theorem reminder_schedule (T : ℤ) (k : ℕ) :
    next_reminder_time T 1 0 = T + 60 ∧
    (reminder_fired T 1 k = true ↔ 0 < k ∧ k % 60 = 0) ∧
    (reminder_fired T 1 k = true →
      next_reminder_time T 1 (k + 1) = (T + k) + 60) := by
  have hk := next_reminder_time_formula T k
  have hk1 := next_reminder_time_formula T (k + 1)
  have h0 := next_reminder_time_formula T 0
  refine ⟨by rw [h0]; norm_num, ?_, ?_⟩
  · unfold reminder_fired update_countdown_step
    rw [hk]
    split
    · rename_i hc
      push_cast at hc
      simp only [true_iff]
      omega
    · rename_i hc
      push_cast at hc
      simp only [Bool.false_eq_true, false_iff]
      omega
  · intro hf
    unfold reminder_fired update_countdown_step at hf
    rw [hk] at hf
    rw [hk1]
    split at hf
    · rename_i hc
      push_cast at hc ⊢
      omega
    · simp at hf

/-- C7 witness: at `T = 5` the initial fire time is 65, tick 60 (time 65)
fires, and the rescheduled fire time is 125. -/
theorem reminder_schedule_witness :
    next_reminder_time 5 1 0 = 5 + 60 ∧
    (reminder_fired 5 1 60 = true ↔ 0 < 60 ∧ 60 % 60 = 0) ∧
    (reminder_fired 5 1 60 = true →
      next_reminder_time 5 1 (60 + 1) = (5 + (60 : ℕ)) + 60) :=
  reminder_schedule 5 60
